import Mathlib

/-
Verification of the USB transport layer of mspdebug (woodsts fork, libusb-1.0
port). Shallow embedding of the transport backends:

  - bslhid.c   : BSL HID framing backend (64-byte frames, suspend/resume)
  - ftdi.c     : FTDI vendor-protocol backend
  - cdc_acm.c  : CDC-ACM backend with local read buffering
  - cp210x.c   : CP210x vendor-protocol backend
  - ti3410.c   : TI3410 legacy bridge (firmware push, header finalization)

Bytes are modelled as Nat (values of C uint8_t), buffers as List Nat, and the
outcome of fallible operations as Option.  USB transfer outcomes that the code
reads from libusb (return codes, byte counts, received data) are passed in as
explicit oracle parameters, so every definition is executable.
-/

namespace Mspdebug

/-! ## BSL HID backend (bslhid.c) -/

/-- Size of every BSL HID bulk transfer (BSLHID_XFER_SIZE). -/
def BSLHID_XFER_SIZE : Nat := 64

/-- Maximum payload per frame (BSLHID_MTU = BSLHID_XFER_SIZE - 2). -/
def BSLHID_MTU : Nat := BSLHID_XFER_SIZE - 2

/-- Constant frame header byte (BSLHID_HEADER). -/
def BSLHID_HEADER : Nat := 0x3F

/-- Vendor id of the BSL HID device (BSLHID_VID). -/
def BSLHID_VID : Nat := 0x2047

/-- Product id of the BSL HID device (BSLHID_PID). -/
def BSLHID_PID : Nat := 0x0200

/-- The frame bslhid_send constructs in outbuf: memset to 0xAC, byte 0 set to
BSLHID_HEADER, byte 1 set to the payload length, payload copied at offset 2.
Defined for payloads of length at most BSLHID_MTU. -/
def bslhid_outbuf (data : List Nat) : List Nat :=
  BSLHID_HEADER :: data.length :: (data ++ List.replicate (BSLHID_MTU - data.length) 0xAC)

/-- The transfer loop of bslhid_send: while len is nonzero, pass the remaining
bytes of the caller buffer data to libusb_bulk_transfer and advance by the
number of bytes the device accepted.  The accepts oracle lists the accepted
count of each successful transfer attempt; none models an exhausted oracle.
Returns the list of buffers handed to libusb_bulk_transfer, in order.  Note
that the loop transmits from data, not from the constructed outbuf. -/
def bslhid_send_loop : List Nat → List Nat → Option (List (List Nat))
  | [], _ => some []
  | _ :: _, [] => none
  | d, a :: rest =>
    match bslhid_send_loop (d.drop a) rest with
    | none => none
    | some ts => some (d :: ts)

/-- bslhid_send: fails immediately when the payload exceeds BSLHID_MTU,
otherwise runs the transfer loop over the caller buffer. -/
def bslhid_send (data : List Nat) (accepts : List Nat) : Option (List (List Nat)) :=
  if data.length > BSLHID_MTU then none
  else bslhid_send_loop data accepts

/-- bslhid_recv after a bulk-in transfer delivered r bytes into inbuf:
fail on a short transfer (r < 2), a bad header byte, or a bad declared
length; otherwise copy the declared-length payload from offset 2. -/
def bslhid_recv (inbuf : List Nat) (r max_len : Nat) : Option (List Nat) :=
  if r < 2 then none
  else if inbuf.getD 0 0 ≠ BSLHID_HEADER then none
  else if inbuf.getD 1 0 > max_len ∨ inbuf.getD 1 0 + 2 > r then none
  else some ((inbuf.drop 2).take (inbuf.getD 1 0))

/-! ### Identity, suspend and resume (bslhid.c) -/

/-- Identity strings (device path, serial number) as character lists. -/
abbrev Ident := List Char

/-- Queries the transport layer can put to the external device locator:
usbutil_find_by_loc on a location string, or usbutil_find_by_id on a
vendor/product pair plus requested serial. -/
inductive LocQuery where
  | byLoc : Ident → LocQuery
  | byId : Nat → Nat → Ident → LocQuery
  deriving DecidableEq

/-- A device as returned by the locator; openable records whether the
open_device sequence (descriptor read, interface discovery, open, claim)
succeeds on it. -/
structure UsbDevice where
  openable : Bool
  deriving DecidableEq

/-- Identity-relevant state of a bslhid_transport: the recorded path and
serial plus whether the device handle is currently open. -/
structure BslhidState where
  path : Ident
  serial : Ident
  handleOpen : Bool
  deriving DecidableEq

/-- Identity recorded by bslhid_open: when a device path is given, the path
field receives it (truncated to the 7 bytes that fit the char path[8] field)
and serial is zeroed; otherwise serial receives the requested serial
(truncated to 127 bytes) and path is zeroed. -/
def bslhid_open_state : Option Ident → Ident → BslhidState
  | some p, _ => ⟨p.take 7, [], true⟩
  | none, sn => ⟨[], sn.take 127, true⟩

/-- Locator query issued by bslhid_open: by location when a path is given,
otherwise by BSLHID_VID/BSLHID_PID and the requested serial. -/
def bslhid_open_query : Option Ident → Ident → LocQuery
  | some p, _ => LocQuery.byLoc p
  | none, sn => LocQuery.byId BSLHID_VID BSLHID_PID sn

/-- bslhid_suspend: release the interface and close the handle, keeping the
recorded path and serial. -/
def bslhid_suspend (s : BslhidState) : BslhidState := ⟨s.path, s.serial, false⟩

/-- Locator query issued by bslhid_resume: always usbutil_find_by_loc on the
recorded path field, regardless of how the instance was opened. -/
def bslhid_resume_query (s : BslhidState) : LocQuery := LocQuery.byLoc s.path

/-- bslhid_resume: succeed immediately when the handle is already open;
otherwise look the device up through the locator (by the recorded path) and
rerun open_device on it. -/
def bslhid_resume (locator : LocQuery → Option UsbDevice) (s : BslhidState) :
    Option BslhidState :=
  if s.handleOpen then some s
  else
    match locator (bslhid_resume_query s) with
    | none => none
    | some d => if d.openable then some ⟨s.path, s.serial, true⟩ else none

/-! ## FTDI backend (ftdi.c) -/

/-- FTDI_SIO_RESET request code. -/
def FTDI_SIO_RESET : Nat := 0

/-- FTDI_SIO_MODEM_CTRL request code. -/
def FTDI_SIO_MODEM_CTRL : Nat := 1

/-- FTDI_SIO_RESET_PURGE_RX request value. -/
def FTDI_SIO_RESET_PURGE_RX : Nat := 1

/-- FTDI modem-control DTR wire bit. -/
def FTDI_DTR : Nat := 0x0001

/-- FTDI modem-control RTS wire bit. -/
def FTDI_RTS : Nat := 0x0002

/-- FTDI write-enable bit for DTR. -/
def FTDI_WRITE_DTR : Nat := 0x0100

/-- FTDI write-enable bit for RTS. -/
def FTDI_WRITE_RTS : Nat := 0x0200

/-- Wire value computed by tr_set_modem in ftdi.c: both write-enable bits,
plus the DTR bit when the requested DTR state is clear and the RTS bit when
the requested RTS state is clear (the lines are active-low on the wire). -/
def ftdi_set_modem_value (dtr rts : Bool) : Nat :=
  let v0 := FTDI_WRITE_DTR ||| FTDI_WRITE_RTS
  let v1 := if !dtr then v0 ||| FTDI_DTR else v0
  if !rts then v1 ||| FTDI_RTS else v1

/-- An ftdi_transport instance, reduced to its device handle field. -/
structure FtdiInstance where
  handle : Nat
  deriving DecidableEq

/-- Control transfer issued by tr_flush in ftdi.c: the source allocates a
fresh ftdi_transport with malloc and issues the purge-RX request on the
handle field of that fresh (uninitialized) instance, not of the caller
instance.  The indeterminate malloc contents are the fresh parameter.
Returns (target handle, request, value). -/
def tr_flush_call (_caller fresh : FtdiInstance) : Nat × Nat × Nat :=
  (fresh.handle, FTDI_SIO_RESET, FTDI_SIO_RESET_PURGE_RX)

/-- Control transfer issued by tr_set_modem in ftdi.c: as with tr_flush, the
source allocates a fresh ftdi_transport with malloc and issues the
modem-control request on the handle field of the fresh instance.
Returns (target handle, request, value). -/
def tr_set_modem_call (_caller fresh : FtdiInstance) (dtr rts : Bool) : Nat × Nat × Nat :=
  (fresh.handle, FTDI_SIO_MODEM_CTRL, ftdi_set_modem_value dtr rts)

/-! ## CP210x backend (cp210x.c) -/

/-- CP210x modem-control DTR wire bit. -/
def CP210X_DTR : Nat := 0x0001

/-- CP210x modem-control RTS wire bit. -/
def CP210X_RTS : Nat := 0x0002

/-- CP210x write-enable bit for DTR. -/
def CP210X_WRITE_DTR : Nat := 0x0100

/-- CP210x write-enable bit for RTS. -/
def CP210X_WRITE_RTS : Nat := 0x0200

/-- Wire value computed by usbtr_set_modem in cp210x.c: both write-enable
bits, plus the DTR bit when the requested DTR state is clear and the RTS bit
when the requested RTS state is clear (active-low on the wire). -/
def cp210x_set_modem_value (dtr rts : Bool) : Nat :=
  let v0 := CP210X_WRITE_DTR ||| CP210X_WRITE_RTS
  let v1 := if !dtr then v0 ||| CP210X_DTR else v0
  if !rts then v1 ||| CP210X_RTS else v1

/-! ## Resource handling during open (ftdi.c open_device, cp210x.c
open_interface), modelled as event traces over an outcome oracle. -/

/-- USB resource events during an open call. -/
inductive UsbEvent where
  | opened
  | claimed
  | released
  | closed
  deriving DecidableEq

/-- Outcomes of the fallible steps of open: device-descriptor read,
libusb_open, libusb_claim_interface, and the configuration sub-sequence
(configure_ftdi resp. configure_port). -/
structure OpenOracle where
  descOk : Bool
  openOk : Bool
  claimOk : Bool
  configOk : Bool
  deriving DecidableEq

/-- Event trace and success flag of open_device in ftdi.c (Linux path):
descriptor read, open, kernel-driver detach (no resource event), claim
(failure closes the handle), configure_ftdi (failure closes the handle
without releasing the claimed interface). -/
def ftdi_open_device (o : OpenOracle) : List UsbEvent × Bool :=
  if !o.descOk then ([], false)
  else if !o.openOk then ([], false)
  else if !o.claimOk then ([UsbEvent.opened, UsbEvent.closed], false)
  else if !o.configOk then
    ([UsbEvent.opened, UsbEvent.claimed, UsbEvent.closed], false)
  else ([UsbEvent.opened, UsbEvent.claimed], true)

/-- Event trace and success flag of open_interface in cp210x.c (Linux path):
the same step structure as ftdi open_device, with configure_port as the
configuration sub-sequence; its failure likewise closes the handle without
releasing the claimed interface. -/
def cp210x_open_interface (o : OpenOracle) : List UsbEvent × Bool :=
  if !o.descOk then ([], false)
  else if !o.openOk then ([], false)
  else if !o.claimOk then ([UsbEvent.opened, UsbEvent.closed], false)
  else if !o.configOk then
    ([UsbEvent.opened, UsbEvent.claimed, UsbEvent.closed], false)
  else ([UsbEvent.opened, UsbEvent.claimed], true)

/-! ## Port configuration return-code checks (cdc_acm.c configure_port,
ti3410.c set_termios).  libusb_control_transfer returns the number of bytes
actually transferred on success (a negative libusb error code on failure),
so a fully successful data-bearing transfer returns its payload length. -/

/-- The 7-byte CDC-ACM line-coding payload built by configure_port:
little-endian baud rate, 1 stop bit, no parity, 8 data bits. -/
def cdc_line_coding (baud : Nat) : List Nat :=
  [baud % 256, baud / 2 ^ 8 % 256, baud / 2 ^ 16 % 256, baud / 2 ^ 24 % 256, 0, 0, 8]

/-- Result of configure_port in cdc_acm.c as a function of the return codes
of its two control transfers (the 7-byte SET_LINE_CODING transfer, then the
zero-length SET_CONTROL transfer): the source tests rc ≠ 0 at each step. -/
def cdc_configure_port (rc1 rc2 : Int) : Bool :=
  if rc1 ≠ 0 then false
  else if rc2 ≠ 0 then false
  else true

/-- TI_UART_8_DATA_BITS constant. -/
def TI_UART_8_DATA_BITS : Nat := 0x03

/-- The 10-byte UART-configuration payload of set_termios in ti3410.c:
460800 bps, flag word 0x0060, 8 data bits, no parity, 1 stop bit, no Xon or
Xoff characters, RS232 mode. -/
def ti3410_tios_data : List Nat :=
  [0x00, 0x02, 0x60, 0x00, TI_UART_8_DATA_BITS, 0x00, 0x00, 0x00, 0x00, 0x00]

/-- Result of set_termios in ti3410.c as a function of the return code of
the TI_SET_CONFIG control transfer carrying ti3410_tios_data: the source
tests rc ≠ 0. -/
def ti3410_set_termios (rc : Int) : Bool :=
  if rc ≠ 0 then false else true

/-! ## Legacy bridge firmware accumulation (ti3410.c do_extract,
prepare_firmware) -/

/-- Size of the firmware accumulation buffer (TI_FIRMWARE_BUF_SIZE). -/
def TI_FIRMWARE_BUF_SIZE : Nat := 16284

/-- One address/data chunk delivered by the external Intel-HEX decoder. -/
structure BinfileChunk where
  addr : Nat
  data : List Nat
  deriving DecidableEq

/-- One step of do_extract in ti3410.c: the accumulated image is f (its
length is the f-size counter); a chunk whose start address differs from the
current size is a fatal firmware gap, a chunk that would overflow the buffer
is fatal, and otherwise the chunk data is appended. -/
def do_extract (f : List Nat) (ch : BinfileChunk) : Option (List Nat) :=
  if f.length ≠ ch.addr then none
  else if f.length + ch.data.length > TI_FIRMWARE_BUF_SIZE then none
  else some (f ++ ch.data)

/-- Folding do_extract over the decoded chunk list in order, stopping at the
first failure (ihex_extract aborts as soon as the callback reports one). -/
def ihex_extract : List Nat → List BinfileChunk → Option (List Nat)
  | f, [] => some f
  | f, ch :: rest =>
    match do_extract f ch with
    | none => none
    | some g => ihex_extract g rest

/-- Chunk list strictly contiguous and ascending starting at address n. -/
def contiguousFromB : Nat → List BinfileChunk → Bool
  | _, [] => true
  | n, ch :: rest => (ch.addr == n) && contiguousFromB (n + ch.data.length) rest

/-- Concatenation of the data of a chunk list, in order. -/
def chunksData : List BinfileChunk → List Nat
  | [] => []
  | ch :: rest => ch.data ++ chunksData rest

/-- Total data length of a chunk list. -/
def chunksLen : List BinfileChunk → Nat
  | [] => 0
  | ch :: rest => ch.data.length + chunksLen rest

/-- prepare_firmware in ti3410.c: with the accumulated image b (f-size is
its length), write the uint16 value size - 3 little-endian into bytes 0 and
1 and the uint8 sum of bytes 3 .. size into byte 2, leaving the rest of the
image unchanged (the first three accumulated bytes are overwritten). -/
def prepare_firmware (b : List Nat) : List Nat :=
  (b.length - 3) % 65536 % 256 ::
    (b.length - 3) % 65536 / 256 ::
    (b.drop 3).sum % 256 ::
    b.drop 3

/-! ## Receive paths (cdc_acm.c usbtr_recv, cp210x.c usbtr_recv) -/

/-- Read-buffer state of a cdc_acm_transport: buffer contents, read cursor
(rbuf_ptr) and valid length (rbuf_len). -/
structure CdcState where
  rbuf : List Nat
  rbuf_ptr : Nat
  rbuf_len : Nat
  deriving DecidableEq

/-- Outcome of the refill bulk transfer in cdc_acm usbtr_recv: a non-timeout
transfer error is fatal; otherwise (rc = 0 or rc = LIBUSB_ERROR_TIMEOUT) the
bytes delivered by libusb are kept, possibly none. -/
inductive CdcXfer where
  | fatal
  | done : List Nat → CdcXfer
  deriving DecidableEq

/-- usbtr_recv in cdc_acm.c: when the cursor has consumed the buffer, reset
the cursor and refill from one bulk transfer (fatal error aborts; the
delivered bytes, possibly none, become the new buffer contents); then serve
at most len bytes from the buffer, advancing the cursor.  Returns the bytes
served and the new state. -/
def cdc_recv (s : CdcState) (len : Nat) (x : CdcXfer) : Option (List Nat × CdcState) :=
  let refill : Option CdcState :=
    if s.rbuf_ptr ≥ s.rbuf_len then
      match x with
      | CdcXfer.fatal => none
      | CdcXfer.done bytes => some ⟨bytes, 0, bytes.length⟩
    else some s
  match refill with
  | none => none
  | some t =>
    let n := if t.rbuf_ptr + len > t.rbuf_len then t.rbuf_len - t.rbuf_ptr else len
    some ((t.rbuf.drop t.rbuf_ptr).take n, ⟨t.rbuf, t.rbuf_ptr + n, t.rbuf_len⟩)

/-- Outcome of one bulk transfer attempt in cp210x usbtr_recv: a non-timeout
error, a timeout (retried until the deadline), or completion with the listed
bytes. -/
inductive CpXfer where
  | fatal
  | timeout
  | ok : List Nat → CpXfer
  deriving DecidableEq

/-- usbtr_recv in cp210x.c: iterate bulk transfers until the deadline (the
oracle list holds one outcome per attempt before the deadline; an exhausted
list is the elapsed deadline, reported as a timeout failure).  A fatal
transfer error aborts; a completed transfer returns exactly the bytes it
delivered, even when there are none. -/
def cp210x_recv : List CpXfer → Option (List Nat)
  | [] => none
  | CpXfer.fatal :: _ => none
  | CpXfer.timeout :: rest => cp210x_recv rest
  | CpXfer.ok bytes :: _ => some bytes

/-! ## Theorems -/

/-- C1 (code-bug evaluation): bslhid_send builds the 64-byte frame
(header 0x3F, length byte, payload, 0xAC filler) in outbuf, but its transfer
loop passes the raw caller buffer to libusb_bulk_transfer.  For the payload
[0x55] with the device accepting every byte, the loop issues exactly one
transfer consisting of the single byte 0x55 — not the constructed 64-byte
frame — and for the empty payload it issues no transfer at all. -/
theorem bslhid_send_transmits_raw_payload :
    bslhid_outbuf [0x55] = 0x3F :: 1 :: 0x55 :: List.replicate 61 0xAC ∧
    (bslhid_outbuf [0x55]).length = BSLHID_XFER_SIZE ∧
    bslhid_send [0x55] [1] = some [[0x55]] ∧
    bslhid_send [0x55] [1] ≠ some [bslhid_outbuf [0x55]] ∧
    bslhid_send [] [] = some [] := by
  decide

/-- C3 (code-bug evaluation): tr_flush and tr_set_modem in ftdi.c issue
their control transfer on the handle of a freshly malloc-allocated,
uninitialized instance instead of the caller-supplied instance.  With the
caller instance holding handle 1 and the fresh allocation holding garbage
handle 0, both operations target handle 0, not the caller handle. -/
theorem ftdi_aux_ops_use_fresh_instance :
    (tr_flush_call ⟨1⟩ ⟨0⟩).1 = 0 ∧
    (FtdiInstance.mk 1).handle = 1 ∧
    (tr_flush_call ⟨1⟩ ⟨0⟩).1 ≠ (FtdiInstance.mk 1).handle ∧
    (tr_set_modem_call ⟨1⟩ ⟨0⟩ true true).1 ≠ (FtdiInstance.mk 1).handle := by
  decide

/-- C6 (code-bug evaluation): a configuration control transfer that succeeds
transferring its full payload makes libusb_control_transfer return the byte
count — 7 for the CDC-ACM line coding, 10 for the TI3410 UART configuration
— and the rc ≠ 0 tests in configure_port and set_termios then report
failure, aborting open; only the impossible return code 0 would be accepted
for these data-bearing transfers. -/
theorem config_success_treated_as_failure :
    (cdc_line_coding 460800).length = 7 ∧
    cdc_configure_port ((cdc_line_coding 460800).length : Int) 0 = false ∧
    ti3410_tios_data.length = 10 ∧
    ti3410_set_termios ((ti3410_tios_data.length : Int)) = false ∧
    cdc_configure_port 0 0 = true ∧
    ti3410_set_termios 0 = true := by
  decide

/-- C4 (counterexample): for an instance opened by serial number, suspend
retains the serial, but resume queries the locator by the (empty) recorded
path instead of by that serial: even with the device present under the
serial identity, resume fails. -/
theorem bslhid_resume_ignores_serial :
    (bslhid_suspend (bslhid_open_state none ['A', 'B', 'C'])).serial = ['A', 'B', 'C'] ∧
    bslhid_resume_query (bslhid_suspend (bslhid_open_state none ['A', 'B', 'C'])) =
      LocQuery.byLoc [] ∧
    bslhid_resume_query (bslhid_suspend (bslhid_open_state none ['A', 'B', 'C'])) ≠
      LocQuery.byId BSLHID_VID BSLHID_PID ['A', 'B', 'C'] ∧
    bslhid_resume
      (fun q =>
        if q = LocQuery.byId BSLHID_VID BSLHID_PID ['A', 'B', 'C'] then some ⟨true⟩
        else none)
      (bslhid_suspend (bslhid_open_state none ['A', 'B', 'C'])) = none := by
  decide

/-- C4 (amended): suspend retains the recorded path and serial, and resume
of a suspended instance always re-locates through the locator by the
recorded path — for path-opened and serial-opened instances alike — failing
when no device is found there and reopening the instance when an openable
device is found. -/
theorem bslhid_resume_by_path (locator : LocQuery → Option UsbDevice)
    (s : BslhidState) (h : s.handleOpen = false) :
    (bslhid_suspend s).path = s.path ∧
    (bslhid_suspend s).serial = s.serial ∧
    bslhid_resume_query s = LocQuery.byLoc s.path ∧
    (locator (LocQuery.byLoc s.path) = none → bslhid_resume locator s = none) ∧
    (∀ d : UsbDevice, locator (LocQuery.byLoc s.path) = some d → d.openable = true →
      bslhid_resume locator s = some ⟨s.path, s.serial, true⟩) := by
  refine ⟨rfl, rfl, rfl, ?_, ?_⟩
  · intro hn
    simp [bslhid_resume, bslhid_resume_query, h, hn]
  · intro d hd hop
    simp [bslhid_resume, bslhid_resume_query, h, hd, hop]

/-- C4 (witness): a suspended path-opened instance whose device has vanished
from the locator fails to resume. -/
theorem bslhid_resume_by_path_witness :
    bslhid_resume (fun _ => none)
      (bslhid_suspend (bslhid_open_state (some ['1', ':', '2']) [])) = none := by
  have h := bslhid_resume_by_path (fun _ => none)
    (bslhid_suspend (bslhid_open_state (some ['1', ':', '2']) [])) (by decide)
  exact h.2.2.2.1 rfl

/-- C5 (counterexample): when configure_ftdi fails after a successful
interface claim, open_device in ftdi.c returns failure having closed the
handle but never releasing the claimed interface, so the claim that every
claimed interface is released before a failed open returns is false. -/
theorem ftdi_open_config_failure_leaves_claim :
    (ftdi_open_device ⟨true, true, true, false⟩).2 = false ∧
    UsbEvent.claimed ∈ (ftdi_open_device ⟨true, true, true, false⟩).1 ∧
    UsbEvent.released ∉ (ftdi_open_device ⟨true, true, true, false⟩).1 ∧
    (cp210x_open_interface ⟨true, true, true, false⟩).2 = false ∧
    UsbEvent.claimed ∈ (cp210x_open_interface ⟨true, true, true, false⟩).1 ∧
    UsbEvent.released ∉ (cp210x_open_interface ⟨true, true, true, false⟩).1 := by
  decide

/-- C5 (amended): whenever open_device (ftdi.c) or open_interface (cp210x.c)
returns failure, every device handle opened during the call has been closed
before the error returns; a claimed interface, however, is torn down only by
that close on the configuration-failure path, with no explicit release. -/
theorem open_failure_closes_handles (o : OpenOracle) :
    ((ftdi_open_device o).2 = false →
      UsbEvent.opened ∈ (ftdi_open_device o).1 →
      UsbEvent.closed ∈ (ftdi_open_device o).1) ∧
    ((cp210x_open_interface o).2 = false →
      UsbEvent.opened ∈ (cp210x_open_interface o).1 →
      UsbEvent.closed ∈ (cp210x_open_interface o).1) := by
  obtain ⟨a, b, c, d⟩ := o
  cases a <;> cases b <;> cases c <;> cases d <;> decide

/-- C5 (witness): at the configuration-failure oracle both backends close
the opened handle before returning the error. -/
theorem open_failure_closes_handles_witness :
    UsbEvent.closed ∈ (ftdi_open_device ⟨true, true, true, false⟩).1 ∧
    UsbEvent.closed ∈ (cp210x_open_interface ⟨true, true, true, false⟩).1 := by
  refine ⟨?_, ?_⟩
  · exact (open_failure_closes_handles ⟨true, true, true, false⟩).1 (by decide) (by decide)
  · exact (open_failure_closes_handles ⟨true, true, true, false⟩).2 (by decide) (by decide)

/-- C9 (counterexample): recv can return a zero-length success.  In
cdc_acm.c, with an empty read buffer and the refill transfer timing out with
no data, usbtr_recv returns zero bytes as a success instead of a timeout
failure; in cp210x.c, a bulk transfer that completes with zero bytes is
likewise returned as a zero-length success. -/
theorem recv_zero_length_success :
    cdc_recv ⟨[], 0, 0⟩ 4 (CdcXfer.done []) = some ([], ⟨[], 0, 0⟩) ∧
    cp210x_recv [CpXfer.ok []] = some [] := by
  decide

/-- C10: in both the CP210x and FTDI backends, set_modem computes the same
wire value, which always carries both write-enable bits 0x0100 and 0x0200,
carries the DTR wire bit 0x0001 exactly when the requested DTR is clear and
the RTS wire bit 0x0002 exactly when the requested RTS is clear; in
particular requesting DTR and RTS both set sends the value 0x0300. -/
theorem set_modem_value_spec :
    (∀ dtr rts : Bool,
      cp210x_set_modem_value dtr rts = ftdi_set_modem_value dtr rts ∧
      cp210x_set_modem_value dtr rts &&& 0x0100 = 0x0100 ∧
      cp210x_set_modem_value dtr rts &&& 0x0200 = 0x0200 ∧
      (cp210x_set_modem_value dtr rts &&& 0x0001 = 0x0001 ↔ dtr = false) ∧
      (cp210x_set_modem_value dtr rts &&& 0x0002 = 0x0002 ↔ rts = false)) ∧
    cp210x_set_modem_value true true = 0x0300 ∧
    ftdi_set_modem_value true true = 0x0300 := by
  decide

/-- C2: given the one 64-byte bulk transfer of bslhid_recv delivering r
bytes, recv fails exactly when r < 2, or byte 0 of the transfer differs from
0x3F, or the declared length (byte 1) exceeds max_len, or the declared
length plus 2 exceeds r; in every other case it returns exactly the
declared-length payload copied from bytes 2 .. 2 + length. -/
theorem bslhid_recv_spec (inbuf : List Nat) (r max_len : Nat)
    (hbuf : inbuf.length = BSLHID_XFER_SIZE) (hr : r ≤ BSLHID_XFER_SIZE) :
    (bslhid_recv inbuf r max_len = none ↔
      r < 2 ∨ inbuf.getD 0 0 ≠ BSLHID_HEADER ∨
        inbuf.getD 1 0 > max_len ∨ inbuf.getD 1 0 + 2 > r) ∧
    (¬(r < 2 ∨ inbuf.getD 0 0 ≠ BSLHID_HEADER ∨
        inbuf.getD 1 0 > max_len ∨ inbuf.getD 1 0 + 2 > r) →
      bslhid_recv inbuf r max_len = some ((inbuf.drop 2).take (inbuf.getD 1 0)) ∧
        ((inbuf.drop 2).take (inbuf.getD 1 0)).length = inbuf.getD 1 0) := by
  simp only [BSLHID_XFER_SIZE] at hbuf hr
  unfold bslhid_recv
  split_ifs with h1 h2 h3
  · exact ⟨iff_of_true rfl (Or.inl h1), fun hc => (hc (Or.inl h1)).elim⟩
  · exact ⟨iff_of_true rfl (Or.inr (Or.inl h2)),
      fun hc => (hc (Or.inr (Or.inl h2))).elim⟩
  · exact ⟨iff_of_true rfl (Or.inr (Or.inr h3)),
      fun hc => (hc (Or.inr (Or.inr h3))).elim⟩
  · refine ⟨iff_of_false (by simp) (by tauto), fun _ => ⟨rfl, ?_⟩⟩
    have hb : inbuf.getD 1 0 + 2 ≤ r := le_of_not_lt (fun hlt => h3 (Or.inr hlt))
    rw [List.length_take, List.length_drop, hbuf]
    omega

/-- C2 (witness): receiving a well-formed 64-byte frame with declared length
1 returns exactly its one payload byte. -/
theorem bslhid_recv_spec_witness :
    bslhid_recv (0x3F :: 1 :: 0xAA :: List.replicate 61 0xAC) 64 62 = some [0xAA] := by
  have h := (bslhid_recv_spec (0x3F :: 1 :: 0xAA :: List.replicate 61 0xAC) 64 62
    (by decide) (by decide)).2 (by decide)
  exact h.1.trans (by decide)

/-- C7: during firmware accumulation, a chunk whose start address differs
from the current accumulated length is a fatal gap failure before any
further chunk is processed, and a chunk list that is strictly contiguous and
ascending from address 0 and fits the firmware buffer accumulates into
exactly the in-order concatenation of its data — nothing is zero-filled. -/
theorem ihex_extract_spec :
    (∀ (f : List Nat) (ch : BinfileChunk) (rest : List BinfileChunk),
      f.length ≠ ch.addr → ihex_extract f (ch :: rest) = none) ∧
    (∀ chunks : List BinfileChunk, contiguousFromB 0 chunks = true →
      chunksLen chunks ≤ TI_FIRMWARE_BUF_SIZE →
      ihex_extract [] chunks = some (chunksData chunks)) := by
  constructor
  · intro f ch rest hgap
    simp [ihex_extract, do_extract, hgap]
  · have key : ∀ (chunks : List BinfileChunk) (f : List Nat),
        contiguousFromB f.length chunks = true →
        f.length + chunksLen chunks ≤ TI_FIRMWARE_BUF_SIZE →
        ihex_extract f chunks = some (f ++ chunksData chunks) := by
      intro chunks
      induction chunks with
      | nil =>
        intro f _ _
        simp [ihex_extract, chunksData]
      | cons ch rest ih =>
        intro f hcont hfit
        rw [contiguousFromB, Bool.and_eq_true, beq_iff_eq] at hcont
        rw [chunksLen] at hfit
        have hstep : do_extract f ch = some (f ++ ch.data) := by
          rw [do_extract, if_neg (by omega), if_neg (by omega)]
        have hlen : (f ++ ch.data).length = f.length + ch.data.length := by
          simp
        have htail := ih (f ++ ch.data) (by rw [hlen]; exact hcont.2) (by rw [hlen]; omega)
        rw [ihex_extract, hstep]
        show ihex_extract (f ++ ch.data) rest = _
        rw [htail, chunksData, List.append_assoc]
    intro chunks h1 h2
    simpa using key chunks [] (by simpa using h1) (by simpa using h2)

/-- C7 (witness): the chunk pair (0, AAAA), (4, BBBB) accumulates into the
8-byte concatenation, while (0, AAAA), (8, BBBB) fails with a gap error. -/
theorem ihex_extract_spec_witness :
    ihex_extract [] [⟨0, [65, 65, 65, 65]⟩, ⟨4, [66, 66, 66, 66]⟩] =
      some [65, 65, 65, 65, 66, 66, 66, 66] ∧
    ihex_extract [] [⟨0, [65, 65, 65, 65]⟩, ⟨8, [66, 66, 66, 66]⟩] = none := by
  constructor
  · have h := ihex_extract_spec.2 [⟨0, [65, 65, 65, 65]⟩, ⟨4, [66, 66, 66, 66]⟩]
      (by decide) (by decide)
    exact h.trans (by decide)
  · have h := ihex_extract_spec.1 [65, 65, 65, 65] ⟨8, [66, 66, 66, 66]⟩ [] (by decide)
    have hstep :
        ihex_extract ([] : List Nat) [⟨0, [65, 65, 65, 65]⟩, ⟨8, [66, 66, 66, 66]⟩] =
          ihex_extract [65, 65, 65, 65] [⟨8, [66, 66, 66, 66]⟩] := by
      decide
    exact hstep.trans h

/-- C8: after a successful decode into an image of total length L (at least
3 and at most the firmware buffer size), prepare_firmware produces a
finished image of the same length whose first two bytes are the
little-endian encoding of L - 3 and whose third byte is the 8-bit sum of all
image bytes after offset 3, those bytes being unchanged. -/
theorem prepare_firmware_header (b : List Nat) (h3 : 3 ≤ b.length)
    (hsz : b.length ≤ TI_FIRMWARE_BUF_SIZE) :
    (prepare_firmware b).length = b.length ∧
    (prepare_firmware b).getD 0 0 + 256 * (prepare_firmware b).getD 1 0 =
      b.length - 3 ∧
    (prepare_firmware b).getD 2 0 = ((prepare_firmware b).drop 3).sum % 256 ∧
    (prepare_firmware b).drop 3 = b.drop 3 := by
  simp only [TI_FIRMWARE_BUF_SIZE] at hsz
  have hm : (b.length - 3) % 65536 = b.length - 3 := Nat.mod_eq_of_lt (by omega)
  refine ⟨?_, ?_, ?_, ?_⟩
  · simp only [prepare_firmware, List.length_cons, List.length_drop]
    omega
  · have e0 : (prepare_firmware b).getD 0 0 = (b.length - 3) % 65536 % 256 := rfl
    have e1 : (prepare_firmware b).getD 1 0 = (b.length - 3) % 65536 / 256 := rfl
    rw [e0, e1, hm]
    omega
  · have e2 : (prepare_firmware b).getD 2 0 = (b.drop 3).sum % 256 := rfl
    have e3 : (prepare_firmware b).drop 3 = b.drop 3 := rfl
    rw [e2, e3]
  · rfl

/-- C8 (witness): on an 8-byte accumulated image the finished image keeps
length 8, encodes 5 little-endian in its first two bytes, and stores the
8-bit sum of the trailing five bytes in byte 2. -/
theorem prepare_firmware_header_witness :
    (prepare_firmware [0, 0, 0, 10, 20, 30, 40, 250]).length = 8 ∧
    (prepare_firmware [0, 0, 0, 10, 20, 30, 40, 250]).getD 0 0 +
      256 * (prepare_firmware [0, 0, 0, 10, 20, 30, 40, 250]).getD 1 0 = 5 ∧
    (prepare_firmware [0, 0, 0, 10, 20, 30, 40, 250]).getD 2 0 = 94 := by
  have h := prepare_firmware_header [0, 0, 0, 10, 20, 30, 40, 250]
    (by decide) (by decide)
  refine ⟨h.1.trans (by decide), h.2.1.trans (by decide), h.2.2.1.trans (by decide)⟩

/-- C9 (amended): a successful recv in the CDC-ACM and CP210x backends
returns at most max_len bytes and returns exactly bytes that were actually
received — a fresh CDC-ACM refill serves a prefix of the delivered transfer,
a CP210x success returns precisely the bytes of a completed transfer, and
CP210x fails with a timeout when every attempt before the deadline times out
— but, per the counterexample, the byte count of a success may be zero. -/
theorem recv_no_padding :
    (∀ (s : CdcState) (len : Nat) (x : CdcXfer) (out : List Nat) (t : CdcState),
      cdc_recv s len x = some (out, t) → out.length ≤ len) ∧
    (∀ (s : CdcState) (len : Nat) (bytes out : List Nat) (t : CdcState),
      s.rbuf_ptr ≥ s.rbuf_len →
      cdc_recv s len (CdcXfer.done bytes) = some (out, t) →
      out = bytes.take len) ∧
    (∀ (xs : List CpXfer) (out : List Nat),
      cp210x_recv xs = some out → CpXfer.ok out ∈ xs) ∧
    (∀ xs : List CpXfer, (∀ y ∈ xs, y = CpXfer.timeout) → cp210x_recv xs = none) := by
  refine ⟨?_, ?_, ?_, ?_⟩
  · intro s len x out t h
    simp only [cdc_recv] at h
    split at h
    · exact Option.noConfusion h
    · simp only [Option.some.injEq, Prod.mk.injEq] at h
      obtain ⟨ho, _⟩ := h
      subst ho
      rw [List.length_take]
      split
      · next hgt => omega
      · omega
  · intro s len bytes out t hge h
    simp only [cdc_recv, if_pos hge] at h
    simp only [Option.some.injEq, Prod.mk.injEq] at h
    obtain ⟨ho, _⟩ := h
    subst ho
    simp only [List.drop_zero]
    split
    · next hgt =>
      rw [Nat.sub_zero, List.take_length, List.take_of_length_le (by omega)]
    · rfl
  · intro xs
    induction xs with
    | nil => intro out h; exact absurd h (by simp [cp210x_recv])
    | cons y rest ih =>
      intro out h
      cases y with
      | fatal => exact absurd h (by simp [cp210x_recv])
      | timeout => exact List.mem_cons_of_mem _ (ih out h)
      | ok bytes =>
        simp only [cp210x_recv, Option.some.injEq] at h
        subst h
        exact List.mem_cons_self _ _
  · intro xs hall
    induction xs with
    | nil => rfl
    | cons y rest ih =>
      have hy := hall y (List.mem_cons_self _ _)
      subst hy
      rw [cp210x_recv]
      exact ih fun z hz => hall z (List.mem_cons_of_mem _ hz)

/-- C9 (amended, witness): a buffered CDC-ACM read of 2 bytes returns at
most 2 bytes, a fresh refill delivering three bytes against a request of 4
returns exactly those three bytes, a completed CP210x transfer of [9] is the
returned data, and an all-timeout attempt sequence is a timeout failure. -/
theorem recv_no_padding_witness :
    ([1, 2] : List Nat).length ≤ 2 ∧
    ([5, 6, 7] : List Nat) = List.take 4 [5, 6, 7] ∧
    CpXfer.ok [9] ∈ [CpXfer.timeout, CpXfer.ok [9]] ∧
    cp210x_recv [CpXfer.timeout, CpXfer.timeout] = none := by
  refine ⟨?_, ?_, ?_, ?_⟩
  · exact recv_no_padding.1 ⟨[1, 2, 3], 0, 3⟩ 2 CdcXfer.fatal [1, 2]
      ⟨[1, 2, 3], 2, 3⟩ (by decide)
  · exact recv_no_padding.2.1 ⟨[], 0, 0⟩ 4 [5, 6, 7] [5, 6, 7]
      ⟨[5, 6, 7], 3, 3⟩ (by decide) (by decide)
  · exact recv_no_padding.2.2.1 [CpXfer.timeout, CpXfer.ok [9]] [9] (by decide)
  · exact recv_no_padding.2.2.2 [CpXfer.timeout, CpXfer.timeout] (by decide)

end Mspdebug

